import Mathlib

/-!
Shallow embedding of the RideConnect backend (src/backend/server.py).

The MongoDB document store is modelled as a record of lists, one list per
collection, in insertion order.  The Mongo primitives used by the code map
to list operations as follows:
  find_one(filter)        -> List.find? (first match)
  insert_one(doc)         -> append at the end of the list
  update_one(filter,$set) -> updateOne (rewrite the first match)
  update_one(filter,$inc) -> updateOne (rewrite the first match)
  delete_one(filter)      -> deleteOne (remove the first match)
Datetimes are seconds since the epoch (Int); a Python datetime value that
may be timezone naive is a PyDateTime carrying its UTC clock reading plus
an awareness flag, so that the tzinfo normalisation in get_current_user
can be transcribed literally.  Floats (the ride price) are never computed
on, only stored and returned, and are embedded as rationals.
-/

/-- Python datetime: UTC clock reading in seconds plus timezone awareness.
Normalising a naive value with replace(tzinfo=utc) keeps the clock reading
and only marks it aware. -/
structure PyDateTime where
  utcSeconds : Int
  tzAware : Bool
deriving DecidableEq, Repr

/-- User document (UserBase model in server.py). -/
structure User where
  user_id : String
  email : Option String
  phone : Option String
  name : String
  profile_picture : Option String
  bio : Option String
  profile_type : String
  is_public : Bool
  auth_type : String
  created_at : Int
deriving DecidableEq, Repr

/-- Password document in the user_passwords collection. -/
structure Credential where
  user_id : String
  password_hash : String
deriving DecidableEq, Repr

/-- Session document in the user_sessions collection (UserSession model). -/
structure Session where
  user_id : String
  session_token : String
  expires_at : PyDateTime
  created_at : Int
deriving DecidableEq, Repr

/-- Follow edge document (FollowBase model). -/
structure Follow where
  follow_id : String
  follower_id : String
  following_id : String
  status : String
  created_at : Int
deriving DecidableEq, Repr

/-- Ride document (RideBase model). -/
structure Ride where
  ride_id : String
  user_id : String
  origin : String
  destination : String
  date_time : Int
  available_seats : Int
  price : Option Rat
  car_details : Option String
  preferences : Option String
  ride_type : String
  status : String
  created_at : Int
deriving DecidableEq, Repr

/-- Ride request document (RideRequestBase model). -/
structure RideRequest where
  request_id : String
  ride_id : String
  requester_id : String
  status : String
  message : Option String
  created_at : Int
deriving DecidableEq, Repr

/-- The document store: one list per collection, in insertion order. -/
structure DB where
  users : List User
  user_passwords : List Credential
  user_sessions : List Session
  follows : List Follow
  rides : List Ride
  ride_requests : List RideRequest
deriving DecidableEq, Repr

/-- Structured HTTP error raised by HTTPException(status_code, detail). -/
structure HTTPError where
  status_code : Nat
  detail : String
deriving DecidableEq, Repr

/-- Mongo update_one: rewrite the first document matching the filter. -/
def updateOne (p : α → Bool) (f : α → α) : List α → List α
  | [] => []
  | x :: xs => if p x then f x :: xs else x :: updateOne p f xs

/-- Mongo delete_one: remove the first document matching the filter. -/
def deleteOne (p : α → Bool) : List α → List α
  | [] => []
  | x :: xs => if p x then xs else x :: deleteOne p xs

theorem find?_updateOne (p : α → Bool) (f : α → α)
    (hpf : ∀ x, p x = true → p (f x) = true) :
    ∀ l : List α, (updateOne p f l).find? p = (l.find? p).map f := by
  intro l
  induction l with
  | nil => rfl
  | cons x xs ih =>
    by_cases hx : p x = true
    · simp [updateOne, hx, List.find?_cons, hpf x hx]
    · simp only [Bool.not_eq_true] at hx
      simp [updateOne, hx, List.find?_cons, ih]

theorem mem_updateOne (p : α → Bool) (f : α → α) (a : α)
    {l : List α} (hfind : l.find? p = some a) :
    ∀ x ∈ updateOne p f l, x ∈ l ∨ x = f a := by
  induction l with
  | nil => intro x hx; cases hx
  | cons y ys ih =>
    by_cases hy : p y = true
    · simp only [List.find?_cons, hy, Option.some.injEq] at hfind
      intro x hx
      rw [updateOne, if_pos hy] at hx
      rcases List.mem_cons.mp hx with h | h
      · right; rw [h, hfind]
      · left; exact List.mem_cons_of_mem y h
    · simp only [Bool.not_eq_true] at hy
      simp only [List.find?_cons, hy] at hfind
      intro x hx
      rw [updateOne, hy] at hx
      simp only [Bool.false_eq_true, if_false] at hx
      rcases List.mem_cons.mp hx with h | h
      · left; rw [h]; exact List.mem_cons_self y ys
      · rcases ih hfind x h with h2 | h2
        · left; exact List.mem_cons_of_mem y h2
        · right; exact h2

theorem find?_append_of_none (p : α → Bool) {l : List α} (l2 : List α)
    (h : l.find? p = none) : (l ++ l2).find? p = l2.find? p := by
  rw [List.find?_append, h, Option.none_or]

theorem countP_eq_zero_of_find?_none (p : α → Bool) {l : List α}
    (h : l.find? p = none) : l.countP p = 0 := by
  rw [List.countP_eq_zero]
  rw [List.find?_eq_none] at h
  exact h

theorem countP_pos_of_find?_some (p : α → Bool) {l : List α} {a : α}
    (h : l.find? p = some a) : 0 < l.countP p := by
  rw [List.countP_pos_iff]
  exact ⟨a, List.mem_of_find?_eq_some h, List.find?_some h⟩

/-- Profile view returned by GET /users/user_id: either the full UserBase
or the limited projection returned for private profiles. -/
inductive ProfileView where
  | full (u : User)
  | redacted (user_id : String) (name : String) (profile_picture : Option String)
      (profile_type : String) (is_public : Bool) (is_private : Bool)
deriving DecidableEq, Repr

/-- Transcription of get_current_user (server.py lines 147 to 185), from the
point where the token has been extracted from cookie or bearer header; the
Python falsiness test covers both a missing token and an empty string.
The store is returned unchanged: the function only performs find_one reads,
so in particular an expired session row is never deleted. -/
def get_current_user (db : DB) (session_token : Option String) (now : Int) :
    Option User × DB :=
  match session_token with
  | none => (none, db)
  | some tok =>
    if tok == "" then (none, db)
    else
      match db.user_sessions.find? (fun s => s.session_token == tok) with
      | none => (none, db)
      | some session =>
        let expires_at :=
          if session.expires_at.tzAware then session.expires_at
          else { session.expires_at with tzAware := true }
        if expires_at.utcSeconds ≤ now then (none, db)
        else
          match db.users.find? (fun u => u.user_id == session.user_id) with
          | none => (none, db)
          | some user_doc => (some user_doc, db)

/-- The single generic error raised on every login failure path
(server.py lines 277 and 282). -/
def invalidCredentials : HTTPError := ⟨401, "Invalid credentials"⟩

/-- Lookup step of login (lines 269 to 274): Python truthiness on the
optional email and phone fields selects which field is queried. -/
def loginUserLookup (db : DB) (email phone : Option String) : Option User :=
  match email with
  | some e =>
    if e == "" then
      match phone with
      | some p => if p == "" then none else db.users.find? (fun u => u.phone == some p)
      | none => none
    else db.users.find? (fun u => u.email == some e)
  | none =>
    match phone with
    | some p => if p == "" then none else db.users.find? (fun u => u.phone == some p)
    | none => none

/-- Transcription of login (server.py lines 267 to 304).  Password checking
(bcrypt.checkpw) is an external primitive, passed in as checkpw; the fresh
session token (secrets.token_urlsafe) is passed in as new_token.  On success
a new session with expiry now + 7 days is appended and the response payload
(user_id, session_token, name) is returned. -/
def login (db : DB) (email phone : Option String) (password : String)
    (checkpw : String → String → Bool) (new_token : String) (now : Int) :
    Except HTTPError (String × String × String × DB) :=
  match loginUserLookup db email phone with
  | none => .error invalidCredentials
  | some user =>
    match db.user_passwords.find? (fun c => c.user_id == user.user_id) with
    | none => .error invalidCredentials
    | some password_doc =>
      if !(checkpw password password_doc.password_hash) then .error invalidCredentials
      else
        let session : Session :=
          { user_id := user.user_id, session_token := new_token,
            expires_at := ⟨now + 7 * 24 * 60 * 60, true⟩, created_at := now }
        .ok (user.user_id, new_token,  user.name,
          { db with user_sessions := db.user_sessions ++ [session] })

/-- Transcription of get_user (server.py lines 458 to 488).  The viewer is
the result of get_current_user for the incoming request (none when the
caller is unauthenticated).  The limited projection is produced only inside
the branch that requires a truthy current_user, mirroring the Python
condition on line 469. -/
def get_user (db : DB) (user_id : String) (current_user : Option User) :
    Except HTTPError ProfileView :=
  match db.users.find? (fun u => u.user_id == user_id) with
  | none => .error ⟨404, "User not found"⟩
  | some user_obj =>
    match current_user with
    | some cu =>
      if !user_obj.is_public then
        let follow := db.follows.find? (fun f =>
          f.follower_id == cu.user_id && f.following_id == user_id &&
          f.status == "accepted")
        if follow == none && !(cu.user_id == user_id) then
          .ok (.redacted user_obj.user_id user_obj.name user_obj.profile_picture
            user_obj.profile_type user_obj.is_public true)
        else .ok (.full user_obj)
      else .ok (.full user_obj)
    | none => .ok (.full user_obj)

/-- Transcription of follow_user (server.py lines 501 to 536).  The actor
is the already authenticated user; fresh follow id and current time are
passed in.  Returns the response message and status together with the
updated store. -/
def follow_user (db : DB) (user : User) (following_id : String)
    (new_follow_id : String) (now : Int) :
    Except HTTPError (String × String × DB) :=
  if user.user_id == following_id then
    .error ⟨400, "Cannot follow yourself"⟩
  else
    match db.users.find? (fun u => u.user_id == following_id) with
    | none => .error ⟨404, "User not found"⟩
    | some target_user =>
      match db.follows.find? (fun f =>
          f.follower_id == user.user_id && f.following_id == following_id) with
      | some existing =>
        .ok ("Already following or request pending", existing.status, db)
      | none =>
        let target_is_public := target_user.is_public
        let follow_doc : Follow :=
          { follow_id := new_follow_id, follower_id := user.user_id,
            following_id := following_id,
            status := if target_is_public then "accepted" else "pending",
            created_at := now }
        .ok (if !target_is_public then "Follow request sent" else "Now following",
          follow_doc.status, { db with follows := db.follows ++ [follow_doc] })

/-- Transcription of respond_follow_request (server.py lines 552 to 571).
The edge must target the actor and still be pending; any action other than
the exact string accept maps to rejected. -/
def respond_follow_request (db : DB) (user : User) (follow_id : String)
    (action : String) : Except HTTPError (String × DB) :=
  match db.follows.find? (fun f =>
      f.follow_id == follow_id && f.following_id == user.user_id &&
      f.status == "pending") with
  | none => .error ⟨404, "Follow request not found"⟩
  | some _ =>
    let new_status := if action == "accept" then "accepted" else "rejected"
    let follows2 := updateOne (fun f => f.follow_id == follow_id)
      (fun f => { f with status := new_status }) db.follows
    .ok ("Follow request " ++ new_status, { db with follows := follows2 })

/-- Patch body of PUT /rides/ride_id (RideUpdate model). -/
structure RideUpdate where
  origin : Option String
  destination : Option String
  date_time : Option Int
  available_seats : Option Int
  price : Option Rat
  car_details : Option String
  preferences : Option String
  status : Option String
deriving DecidableEq, Repr

/-- Application of the non-None fields of a RideUpdate patch, mirroring the
update_dict comprehension plus Mongo set on server.py lines 731 to 737. -/
def applyRideUpdate (patch : RideUpdate) (r : Ride) : Ride :=
  { r with
    origin := patch.origin.getD r.origin,
    destination := patch.destination.getD r.destination,
    date_time := patch.date_time.getD r.date_time,
    available_seats := patch.available_seats.getD r.available_seats,
    price := patch.price.or r.price,
    car_details := patch.car_details.or r.car_details,
    preferences := patch.preferences.or r.preferences,
    status := patch.status.getD r.status }

/-- Transcription of update_ride (server.py lines 720 to 740).  After the
ownership check the patch is applied to the first ride matching the id and
the updated document is read back; the unreachable case where the read back
fails (the Python code would raise a TypeError) is a 500. -/
def update_ride (db : DB) (user : User) (ride_id : String) (patch : RideUpdate) :
    Except HTTPError (Ride × DB) :=
  match db.rides.find? (fun r => r.ride_id == ride_id) with
  | none => .error ⟨404, "Ride not found"⟩
  | some ride =>
    if !(ride.user_id == user.user_id) then .error ⟨403, "Not authorized"⟩
    else
      let rides2 := updateOne (fun r => r.ride_id == ride_id)
        (applyRideUpdate patch) db.rides
      let db2 : DB := { db with rides := rides2 }
      match db2.rides.find? (fun r => r.ride_id == ride_id) with
      | none => .error ⟨500, "Internal Server Error"⟩
      | some updated_ride => .ok (updated_ride, db2)

/-- Transcription of delete_ride (server.py lines 742 to 754). -/
def delete_ride (db : DB) (user : User) (ride_id : String) :
    Except HTTPError (String × DB) :=
  match db.rides.find? (fun r => r.ride_id == ride_id) with
  | none => .error ⟨404, "Ride not found"⟩
  | some ride =>
    if !(ride.user_id == user.user_id) then .error ⟨403, "Not authorized"⟩
    else
      let rides2 := deleteOne (fun r => r.ride_id == ride_id) db.rides
      .ok ("Ride deleted", { db with rides := rides2 })

/-- Transcription of request_ride (server.py lines 758 to 792).  The
duplicate check uses the Mongo in-set filter on status pending or accepted;
an existing rejected request does not match it. -/
def request_ride (db : DB) (user : User) (ride_id : String)
    (message : Option String) (new_request_id : String) (now : Int) :
    Except HTTPError (RideRequest × DB) :=
  match db.rides.find? (fun r => r.ride_id == ride_id) with
  | none => .error ⟨404, "Ride not found"⟩
  | some ride =>
    if ride.user_id == user.user_id then
      .error ⟨400, "Cannot request your own ride"⟩
    else
      match db.ride_requests.find? (fun r =>
          r.ride_id == ride_id && r.requester_id == user.user_id &&
          (r.status == "pending" || r.status == "accepted")) with
      | some _ => .error ⟨400, "Already requested this ride"⟩
      | none =>
        let request_doc : RideRequest :=
          { request_id := new_request_id, ride_id := ride_id,
            requester_id := user.user_id, status := "pending",
            message := message, created_at := now }
        .ok (request_doc,
          { db with ride_requests := db.ride_requests ++ [request_doc] })

/-- Transcription of respond_ride_request (server.py lines 843 to 871).
The request is looked up by id with no restriction on its current status;
the ride owner check uses the ride referenced by the request; the status
write happens unconditionally, and when the new status is accepted and the
seat count read before the write is positive, the ride seat count is
decremented by one. -/
def respond_ride_request (db : DB) (user : User) (request_id : String)
    (action : String) : Except HTTPError (String × DB) :=
  match db.ride_requests.find? (fun r => r.request_id == request_id) with
  | none => .error ⟨404, "Request not found"⟩
  | some ride_request =>
    match db.rides.find? (fun r => r.ride_id == ride_request.ride_id) with
    | none => .error ⟨403, "Not authorized"⟩
    | some ride =>
      if !(ride.user_id == user.user_id) then .error ⟨403, "Not authorized"⟩
      else
        let new_status := if action == "accept" then "accepted" else "rejected"
        let requests2 := updateOne (fun r => r.request_id == request_id)
          (fun r => { r with status := new_status }) db.ride_requests
        let db2 : DB := { db with ride_requests := requests2 }
        let rides3 := updateOne (fun r => r.ride_id == ride_request.ride_id)
          (fun r => { r with available_seats := r.available_seats - 1 }) db2.rides
        let db3 : DB :=
          if new_status == "accepted" && ride.available_seats > 0 then
            { db2 with rides := rides3 }
          else db2
        .ok ("Request " ++ new_status, db3)

/-- Sample public user used by concrete witnesses. -/
def aliceU : User :=
  { user_id := "alice", email := some "alice@example.com", phone := none,
    name := "Alice", profile_picture := none, bio := none,
    profile_type := "rider", is_public := true, auth_type := "email",
    created_at := 0 }

/-- Sample private user with contact details, used by concrete witnesses. -/
def bobU : User :=
  { user_id := "bob", email := some "bob@example.com", phone := some "555-1234",
    name := "Bob", profile_picture := none, bio := some "private bio",
    profile_type := "passenger", is_public := false, auth_type := "email",
    created_at := 0 }

/-- Sample ride owned by alice with three seats, used by concrete witnesses. -/
def ride1 : Ride :=
  { ride_id := "ride1", user_id := "alice", origin := "New York",
    destination := "Boston", date_time := 1000, available_seats := 3,
    price := none, car_details := none, preferences := none,
    ride_type := "offering", status := "active", created_at := 0 }

/-- Empty document store, the base for concrete witnesses. -/
def emptyDB : DB :=
  { users := [], user_passwords := [], user_sessions := [], follows := [],
    rides := [], ride_requests := [] }


/-- Store holding one expired session for alice, for the C5 witness. -/
def dbExpired : DB :=
  { emptyDB with
    users := [aliceU],
    user_sessions := [⟨"alice", "tok1", ⟨100, true⟩, 0⟩] }

/-- Store holding one live session whose user record is missing, for the C5
witness. -/
def dbOrphan : DB :=
  { emptyDB with
    user_sessions := [⟨"ghost", "tok2", ⟨100, true⟩, 0⟩] }

/-- Claim C5: a stored session whose expires_at (normalized to UTC) is at or
before the current time resolves to an absent actor, and the store,
including the expired session row, is returned untouched; a stored live
session whose user record is missing also resolves to absent with the
store untouched. -/
theorem get_current_user_expired_or_orphan_absent
    (db : DB) (tok : String) (now : Int) (session : Session)
    (htok : tok ≠ "")
    (hs : db.user_sessions.find? (fun s => s.session_token == tok) = some session) :
    (session.expires_at.utcSeconds ≤ now →
      get_current_user db (some tok) now = (none, db)) ∧
    (now < session.expires_at.utcSeconds →
      db.users.find? (fun u => u.user_id == session.user_id) = none →
      get_current_user db (some tok) now = (none, db)) := by
  have htok2 : (tok == "") = false := beq_eq_false_iff_ne.mpr htok
  constructor
  · intro hexp
    by_cases htz : session.expires_at.tzAware
    · simp [get_current_user, htok2, hs, htz, hexp]
    · simp only [Bool.not_eq_true] at htz
      simp [get_current_user, htok2, hs, htz, hexp]
  · intro hlive huser
    have hnot : ¬ session.expires_at.utcSeconds ≤ now := not_le.mpr hlive
    by_cases htz : session.expires_at.tzAware
    · simp [get_current_user, htok2, hs, htz, hnot, huser]
    · simp only [Bool.not_eq_true] at htz
      simp [get_current_user, htok2, hs, htz, hnot, huser]

/-- Concrete witness for the C5 theorem: an expired session row (expiry at
time 100, current time 100) and an orphaned live session both resolve to
absent and leave the store unchanged. -/
theorem get_current_user_expired_or_orphan_absent_witness :
    get_current_user dbExpired (some "tok1") 100 = (none, dbExpired) ∧
    get_current_user dbOrphan (some "tok2") 50 = (none, dbOrphan) := by
  constructor
  · exact (get_current_user_expired_or_orphan_absent dbExpired "tok1" 100
      ⟨"alice", "tok1", ⟨100, true⟩, 0⟩ (by decide) (by rfl)).1 (by decide)
  · exact (get_current_user_expired_or_orphan_absent dbOrphan "tok2" 50
      ⟨"ghost", "tok2", ⟨100, true⟩, 0⟩ (by decide) (by rfl)).2 (by decide) (by rfl)

/-- Claim C7: the three login failure causes, no matching user, a matching
user with no stored credential, and a credential mismatch, all return the
single generic error value invalidCredentials, with the same status code
401 and the same message, so the response does not reveal which cause
occurred. -/
theorem login_failures_indistinguishable
    (db : DB) (email phone : Option String) (password : String)
    (checkpw : String → String → Bool) (new_token : String) (now : Int) :
    (loginUserLookup db email phone = none →
      login db email phone password checkpw new_token now =
        .error invalidCredentials) ∧
    (∀ user, loginUserLookup db email phone = some user →
      db.user_passwords.find? (fun c => c.user_id == user.user_id) = none →
      login db email phone password checkpw new_token now =
        .error invalidCredentials) ∧
    (∀ user password_doc, loginUserLookup db email phone = some user →
      db.user_passwords.find? (fun c => c.user_id == user.user_id) =
        some password_doc →
      checkpw password password_doc.password_hash = false →
      login db email phone password checkpw new_token now =
        .error invalidCredentials) := by
  refine ⟨fun h1 => ?_, fun user h1 h2 => ?_, fun user password_doc h1 h2 h3 => ?_⟩
  · simp [login, h1]
  · simp [login, h1, h2]
  · simp [login, h1, h2, h3]

/-- Store with alice present but no credential row, for the C7 witness. -/
def dbNoCred : DB := { emptyDB with users := [aliceU] }

/-- Store with alice and a stored credential, for the C7 witness. -/
def dbWithCred : DB :=
  { emptyDB with
    users := [aliceU],
    user_passwords := [⟨"alice", "hashed"⟩] }

/-- Concrete witness for the C7 theorem: an unknown email, a known email
with no credential row, and a known email with a mismatching password all
produce the very same error value. -/
theorem login_failures_indistinguishable_witness :
    login emptyDB (some "alice@example.com") none "pw" (fun _ _ => false)
      "tok" 0 = .error invalidCredentials ∧
    login dbNoCred (some "alice@example.com") none "pw" (fun _ _ => false)
      "tok" 0 = .error invalidCredentials ∧
    login dbWithCred (some "alice@example.com") none "pw" (fun _ _ => false)
      "tok" 0 = .error invalidCredentials := by
  refine ⟨?_, ?_, ?_⟩
  · exact (login_failures_indistinguishable emptyDB (some "alice@example.com")
      none "pw" (fun _ _ => false) "tok" 0).1 (by rfl)
  · exact (login_failures_indistinguishable dbNoCred (some "alice@example.com")
      none "pw" (fun _ _ => false) "tok" 0).2.1 aliceU (by rfl) (by rfl)
  · exact (login_failures_indistinguishable dbWithCred (some "alice@example.com")
      none "pw" (fun _ _ => false) "tok" 0).2.2 aliceU ⟨"alice", "hashed"⟩
      (by rfl) (by rfl) (by rfl)

/-- Claim C8: both ride mutation operations fail NotFound when the ride is
absent, fail Forbidden when the ride exists but is owned by someone else,
and succeed for the owner, update_ride returning the patched ride and
delete_ride removing it. -/
theorem ride_mutation_owner_guard
    (db : DB) (user : User) (ride_id : String) (patch : RideUpdate) :
    (db.rides.find? (fun r => r.ride_id == ride_id) = none →
      update_ride db user ride_id patch = .error ⟨404, "Ride not found"⟩ ∧
      delete_ride db user ride_id = .error ⟨404, "Ride not found"⟩) ∧
    (∀ ride, db.rides.find? (fun r => r.ride_id == ride_id) = some ride →
      ride.user_id ≠ user.user_id →
      update_ride db user ride_id patch = .error ⟨403, "Not authorized"⟩ ∧
      delete_ride db user ride_id = .error ⟨403, "Not authorized"⟩) ∧
    (∀ ride, db.rides.find? (fun r => r.ride_id == ride_id) = some ride →
      ride.user_id = user.user_id →
      update_ride db user ride_id patch =
        .ok (applyRideUpdate patch ride,
          { db with rides := updateOne (fun r => r.ride_id == ride_id) (applyRideUpdate patch) db.rides }) ∧
      delete_ride db user ride_id =
        .ok ("Ride deleted",
          { db with rides := deleteOne (fun r => r.ride_id == ride_id) db.rides })) := by
  refine ⟨fun h1 => ?_, fun ride h1 h2 => ?_, fun ride h1 h2 => ?_⟩
  · constructor
    · simp [update_ride, h1]
    · simp [delete_ride, h1]
  · have hne : (ride.user_id == user.user_id) = false := beq_eq_false_iff_ne.mpr h2
    constructor
    · simp [update_ride, h1, hne]
    · simp [delete_ride, h1, hne]
  · have heq : (ride.user_id == user.user_id) = true := beq_iff_eq.mpr h2
    have hpf : ∀ r : Ride, (r.ride_id == ride_id) = true →
        ((applyRideUpdate patch r).ride_id == ride_id) = true := by
      intro r hr
      simpa [applyRideUpdate] using hr
    have hfind := find?_updateOne (fun r => r.ride_id == ride_id)
      (applyRideUpdate patch) hpf db.rides
    rw [h1] at hfind
    constructor
    · simp [update_ride, h1, heq, hfind]
    · simp [delete_ride, h1, heq]

/-- Store with two users and one ride owned by alice, for the C8 witness. -/
def dbRide : DB :=
  { emptyDB with
    users := [aliceU, bobU],
    rides := [ride1] }

/-- Empty ride patch, used by the C8 witness. -/
def emptyPatch : RideUpdate :=
  { origin := none, destination := none, date_time := none,
    available_seats := none, price := none, car_details := none,
    preferences := none, status := none }

/-- Concrete witness for the C8 theorem: a missing ride gives 404 for both
operations, bob mutating the ride owned by alice gives 403 for both, and
alice herself succeeds on both. -/
theorem ride_mutation_owner_guard_witness :
    (update_ride emptyDB aliceU "nope" emptyPatch =
        .error ⟨404, "Ride not found"⟩ ∧
      delete_ride emptyDB aliceU "nope" = .error ⟨404, "Ride not found"⟩) ∧
    (update_ride dbRide bobU "ride1" emptyPatch =
        .error ⟨403, "Not authorized"⟩ ∧
      delete_ride dbRide bobU "ride1" = .error ⟨403, "Not authorized"⟩) ∧
    (update_ride dbRide aliceU "ride1" emptyPatch =
        .ok (applyRideUpdate emptyPatch ride1,
          { dbRide with rides := updateOne (fun r => r.ride_id == "ride1") (applyRideUpdate emptyPatch) dbRide.rides }) ∧
      delete_ride dbRide aliceU "ride1" =
        .ok ("Ride deleted",
          { dbRide with rides := deleteOne (fun r => r.ride_id == "ride1") dbRide.rides })) := by
  refine ⟨?_, ?_, ?_⟩
  · exact (ride_mutation_owner_guard emptyDB aliceU "nope" emptyPatch).1 (by rfl)
  · exact (ride_mutation_owner_guard dbRide bobU "ride1" emptyPatch).2.1 ride1
      (by rfl) (by decide)
  · exact (ride_mutation_owner_guard dbRide aliceU "ride1" emptyPatch).2.2 ride1
      (by rfl) (by decide)

/-- Claim C6: creating a ride request fails 404 if the ride is absent, 400
if the actor owns the ride, 400 with the duplicate message if the actor
already has a pending or accepted request on this ride, and otherwise,
in particular when every earlier request by the actor on this ride is
rejected, appends a fresh request with status pending. -/
theorem request_ride_guards
    (db : DB) (user : User) (ride_id : String) (message : Option String)
    (new_request_id : String) (now : Int) :
    (db.rides.find? (fun r => r.ride_id == ride_id) = none →
      request_ride db user ride_id message new_request_id now =
        .error ⟨404, "Ride not found"⟩) ∧
    (∀ ride, db.rides.find? (fun r => r.ride_id == ride_id) = some ride →
      ride.user_id = user.user_id →
      request_ride db user ride_id message new_request_id now =
        .error ⟨400, "Cannot request your own ride"⟩) ∧
    (∀ ride dup, db.rides.find? (fun r => r.ride_id == ride_id) = some ride →
      ride.user_id ≠ user.user_id →
      db.ride_requests.find? (fun r =>
        r.ride_id == ride_id && r.requester_id == user.user_id &&
        (r.status == "pending" || r.status == "accepted")) = some dup →
      request_ride db user ride_id message new_request_id now =
        .error ⟨400, "Already requested this ride"⟩) ∧
    (∀ ride, db.rides.find? (fun r => r.ride_id == ride_id) = some ride →
      ride.user_id ≠ user.user_id →
      (∀ r ∈ db.ride_requests, r.ride_id = ride_id →
        r.requester_id = user.user_id → r.status = "rejected") →
      request_ride db user ride_id message new_request_id now =
        .ok (⟨new_request_id, ride_id, user.user_id, "pending", message, now⟩,
          { db with ride_requests := db.ride_requests ++
              [⟨new_request_id, ride_id, user.user_id, "pending", message, now⟩] })) := by
  refine ⟨fun h1 => ?_, fun ride h1 h2 => ?_, fun ride dup h1 h2 h3 => ?_,
    fun ride h1 h2 h3 => ?_⟩
  · simp [request_ride, h1]
  · have heq : (ride.user_id == user.user_id) = true := beq_iff_eq.mpr h2
    simp [request_ride, h1, heq]
  · have hne : (ride.user_id == user.user_id) = false := beq_eq_false_iff_ne.mpr h2
    simp [request_ride, h1, hne, h3]
  · have hne : (ride.user_id == user.user_id) = false := beq_eq_false_iff_ne.mpr h2
    have hdup : db.ride_requests.find? (fun r =>
        r.ride_id == ride_id && r.requester_id == user.user_id &&
        (r.status == "pending" || r.status == "accepted")) = none := by
      rw [List.find?_eq_none]
      intro r hr
      simp only [Bool.and_eq_true, Bool.or_eq_true, beq_iff_eq, not_and, not_or]
      rintro ⟨hrid, hreq⟩
      have hst := h3 r hr hrid hreq
      rw [hst]
      refine ⟨by decide, by decide⟩
    simp [request_ride, h1, hne, hdup]

/-- Pending ride request by bob against ride1, for concrete witnesses. -/
def reqBobPending : RideRequest :=
  { request_id := "req1", ride_id := "ride1", requester_id := "bob",
    status := "pending", message := some "Hi", created_at := 5 }

/-- Rejected ride request by bob against ride1, for concrete witnesses. -/
def reqBobRejected : RideRequest :=
  { request_id := "req2", ride_id := "ride1", requester_id := "bob",
    status := "rejected", message := none, created_at := 6 }

/-- Store where bob already has a pending request on the alice ride. -/
def dbReqDup : DB := { dbRide with ride_requests := [reqBobPending] }

/-- Store where the only earlier request by bob on the alice ride was
rejected. -/
def dbReqRej : DB := { dbRide with ride_requests := [reqBobRejected] }

/-- Concrete witness for the C6 theorem: missing ride, own ride, duplicate
pending request, and re-request after rejection. -/
theorem request_ride_guards_witness :
    request_ride emptyDB bobU "ride1" none "reqX" 9 =
      .error ⟨404, "Ride not found"⟩ ∧
    request_ride dbRide aliceU "ride1" none "reqX" 9 =
      .error ⟨400, "Cannot request your own ride"⟩ ∧
    request_ride dbReqDup bobU "ride1" none "reqX" 9 =
      .error ⟨400, "Already requested this ride"⟩ ∧
    request_ride dbReqRej bobU "ride1" none "reqX" 9 =
      .ok (⟨"reqX", "ride1", "bob", "pending", none, 9⟩,
        { dbReqRej with ride_requests := dbReqRej.ride_requests ++
            [⟨"reqX", "ride1", "bob", "pending", none, 9⟩] }) := by
  refine ⟨?_, ?_, ?_, ?_⟩
  · exact (request_ride_guards emptyDB bobU "ride1" none "reqX" 9).1 (by rfl)
  · exact (request_ride_guards dbRide aliceU "ride1" none "reqX" 9).2.1 ride1
      (by rfl) (by decide)
  · exact (request_ride_guards dbReqDup bobU "ride1" none "reqX" 9).2.2.1 ride1
      reqBobPending (by rfl) (by decide) (by rfl)
  · exact (request_ride_guards dbReqRej bobU "ride1" none "reqX" 9).2.2.2 ride1
      (by rfl) (by decide) (by decide)

/-- Claim C1: when the owner accepts a pending request with a positive seat
count, the stored request becomes accepted and the ride seat count drops by
exactly one; accepting with the seat count at zero still marks the request
accepted and leaves every ride untouched; rejecting never changes rides. -/
theorem respond_ride_request_accept_seats
    (db : DB) (user : User) (request_id : String) (rq : RideRequest) (ride : Ride)
    (hreq : db.ride_requests.find? (fun r => r.request_id == request_id) = some rq)
    (hpend : rq.status = "pending")
    (hride : db.rides.find? (fun r => r.ride_id == rq.ride_id) = some ride)
    (hown : ride.user_id = user.user_id) :
    (0 < ride.available_seats →
      ∃ db2, respond_ride_request db user request_id "accept" =
          .ok ("Request accepted", db2) ∧
        db2.ride_requests.find? (fun r => r.request_id == request_id) =
          some { rq with status := "accepted" } ∧
        db2.rides.find? (fun r => r.ride_id == rq.ride_id) =
          some { ride with available_seats := ride.available_seats - 1 }) ∧
    (ride.available_seats = 0 →
      ∃ db2, respond_ride_request db user request_id "accept" =
          .ok ("Request accepted", db2) ∧
        db2.ride_requests.find? (fun r => r.request_id == request_id) =
          some { rq with status := "accepted" } ∧
        db2.rides = db.rides) ∧
    (∃ db2, respond_ride_request db user request_id "reject" =
        .ok ("Request rejected", db2) ∧
      db2.ride_requests.find? (fun r => r.request_id == request_id) =
        some { rq with status := "rejected" } ∧
      db2.rides = db.rides) := by
  have hownb : (ride.user_id == user.user_id) = true := beq_iff_eq.mpr hown
  have hreqpf : ∀ st : String, ∀ r : RideRequest, (r.request_id == request_id) = true →
      (({ r with status := st } : RideRequest).request_id == request_id) = true := by
    intro st r hr
    simpa using hr
  have hfindreq : ∀ st : String,
      (updateOne (fun r => r.request_id == request_id)
        (fun r => { r with status := st }) db.ride_requests).find?
          (fun r => r.request_id == request_id) = some { rq with status := st } := by
    intro st
    have := find?_updateOne (fun r => r.request_id == request_id)
      (fun r => { r with status := st }) (hreqpf st) db.ride_requests
    rw [hreq] at this
    simpa using this
  have hridepf : ∀ r : Ride, (r.ride_id == rq.ride_id) = true →
      (({ r with available_seats := r.available_seats - 1 } : Ride).ride_id ==
        rq.ride_id) = true := by
    intro r hr
    simpa using hr
  refine ⟨fun hpos => ?_, fun hzero => ?_, ?_⟩
  · have hguard : (decide (ride.available_seats > 0)) = true := by
      simpa using hpos
    have hfindride := find?_updateOne (fun r => r.ride_id == rq.ride_id)
      (fun r => { r with available_seats := r.available_seats - 1 }) hridepf db.rides
    rw [hride] at hfindride
    refine ⟨{ db with ride_requests := updateOne (fun r => r.request_id == request_id) (fun r => { r with status := "accepted" }) db.ride_requests, rides := updateOne (fun r => r.ride_id == rq.ride_id) (fun r => { r with available_seats := r.available_seats - 1 }) db.rides }, ?_, ?_, ?_⟩
    · simp [respond_ride_request, hreq, hride, hownb, hguard]
    · simpa using hfindreq "accepted"
    · simpa using hfindride
  · have hguard : (decide (ride.available_seats > 0)) = false := by
      simp [hzero]
    refine ⟨{ db with ride_requests := updateOne (fun r => r.request_id == request_id) (fun r => { r with status := "accepted" }) db.ride_requests }, ?_, ?_, ?_⟩
    · simp [respond_ride_request, hreq, hride, hownb, hguard]
    · simpa using hfindreq "accepted"
    · rfl
  · refine ⟨{ db with ride_requests := updateOne (fun r => r.request_id == request_id) (fun r => { r with status := "rejected" }) db.ride_requests }, ?_, ?_, ?_⟩
    · simp [respond_ride_request, hreq, hride, hownb]
    · simpa using hfindreq "rejected"
    · rfl

/-- The alice ride with its seat count already at zero. -/
def ride0 : Ride := { ride1 with available_seats := 0 }

/-- Store where bob has a pending request on the zero seat alice ride. -/
def dbReqZero : DB :=
  { emptyDB with
    users := [aliceU, bobU],
    rides := [ride0],
    ride_requests := [reqBobPending] }

/-- Concrete witness for the C1 theorem: accepting with three seats leaves
two, accepting with zero seats leaves zero yet still marks the request
accepted, and rejecting leaves the rides untouched. -/
theorem respond_ride_request_accept_seats_witness :
    (∃ db2, respond_ride_request dbReqDup aliceU "req1" "accept" =
        .ok ("Request accepted", db2) ∧
      db2.ride_requests.find? (fun r => r.request_id == "req1") =
        some { reqBobPending with status := "accepted" } ∧
      db2.rides.find? (fun r => r.ride_id == reqBobPending.ride_id) =
        some { ride1 with available_seats := ride1.available_seats - 1 }) ∧
    (∃ db2, respond_ride_request dbReqZero aliceU "req1" "accept" =
        .ok ("Request accepted", db2) ∧
      db2.ride_requests.find? (fun r => r.request_id == "req1") =
        some { reqBobPending with status := "accepted" } ∧
      db2.rides = dbReqZero.rides) ∧
    (∃ db2, respond_ride_request dbReqDup aliceU "req1" "reject" =
        .ok ("Request rejected", db2) ∧
      db2.ride_requests.find? (fun r => r.request_id == "req1") =
        some { reqBobPending with status := "rejected" } ∧
      db2.rides = dbReqDup.rides) := by
  refine ⟨?_, ?_, ?_⟩
  · exact (respond_ride_request_accept_seats dbReqDup aliceU "req1"
      reqBobPending ride1 (by rfl) (by rfl) (by rfl) (by rfl)).1 (by decide)
  · exact (respond_ride_request_accept_seats dbReqZero aliceU "req1"
      reqBobPending ride0 (by rfl) (by rfl) (by rfl) (by rfl)).2.1 (by rfl)
  · exact (respond_ride_request_accept_seats dbReqDup aliceU "req1"
      reqBobPending ride1 (by rfl) (by rfl) (by rfl) (by rfl)).2.2

/-- Claim C9: a successful respond call never drives any seat count
negative: if every ride in the store has a nonnegative seat count before
the call, every ride still has a nonnegative seat count after it, because
the decrement is guarded by the positivity of the count read at the start
of the call. -/
theorem respond_ride_request_seats_nonneg
    (db : DB) (user : User) (request_id action s : String) (db2 : DB)
    (hpos : ∀ r ∈ db.rides, 0 ≤ r.available_seats)
    (h : respond_ride_request db user request_id action = .ok (s, db2)) :
    ∀ r ∈ db2.rides, 0 ≤ r.available_seats := by
  cases hreq : db.ride_requests.find? (fun r => r.request_id == request_id) with
  | none =>
    rw [show respond_ride_request db user request_id action =
      .error ⟨404, "Request not found"⟩ from by simp [respond_ride_request, hreq]] at h
    simp at h
  | some rq =>
    cases hride : db.rides.find? (fun r => r.ride_id == rq.ride_id) with
    | none =>
      rw [show respond_ride_request db user request_id action =
        .error ⟨403, "Not authorized"⟩ from by simp [respond_ride_request, hreq, hride]] at h
      simp at h
    | some ride =>
      by_cases hown : (ride.user_id == user.user_id) = true
      · by_cases haction : (action == "accept") = true
        · by_cases hseats : 0 < ride.available_seats
          · have hguard : (decide (ride.available_seats > 0)) = true := by
              simpa using hseats
            rw [show respond_ride_request db user request_id action =
              .ok ("Request " ++ "accepted",
                { db with
                  ride_requests := updateOne (fun r => r.request_id == request_id) (fun r => { r with status := "accepted" }) db.ride_requests,
                  rides := updateOne (fun r => r.ride_id == rq.ride_id) (fun r => { r with available_seats := r.available_seats - 1 }) db.rides }) from by
              simp [respond_ride_request, hreq, hride, hown, haction, hguard]] at h
            rw [Except.ok.injEq, Prod.mk.injEq] at h
            obtain ⟨-, hdb⟩ := h
            rw [← hdb]
            intro r hr
            simp only [] at hr
            rcases mem_updateOne (fun r => r.ride_id == rq.ride_id)
                (fun r => { r with available_seats := r.available_seats - 1 })
                ride hride r hr with hin | hset
            · exact hpos r hin
            · rw [hset]
              simp only []
              omega
          · have hguard : (decide (ride.available_seats > 0)) = false := by
              simpa using hseats
            rw [show respond_ride_request db user request_id action =
              .ok ("Request " ++ "accepted",
                { db with
                  ride_requests := updateOne (fun r => r.request_id == request_id) (fun r => { r with status := "accepted" }) db.ride_requests }) from by
              simp [respond_ride_request, hreq, hride, hown, haction, hguard]] at h
            rw [Except.ok.injEq, Prod.mk.injEq] at h
            obtain ⟨-, hdb⟩ := h
            rw [← hdb]
            exact hpos
        · simp only [Bool.not_eq_true] at haction
          rw [show respond_ride_request db user request_id action =
            .ok ("Request " ++ "rejected",
              { db with
                ride_requests := updateOne (fun r => r.request_id == request_id) (fun r => { r with status := "rejected" }) db.ride_requests }) from by
            simp [respond_ride_request, hreq, hride, hown, haction]] at h
          rw [Except.ok.injEq, Prod.mk.injEq] at h
          obtain ⟨-, hdb⟩ := h
          rw [← hdb]
          exact hpos
      · simp only [Bool.not_eq_true] at hown
        rw [show respond_ride_request db user request_id action =
          .error ⟨403, "Not authorized"⟩ from by
          simp [respond_ride_request, hreq, hride, hown]] at h
        simp at h

/-- Concrete witness for the C9 theorem: accepting the pending request on
the three seat ride keeps the stored seat count, now two, nonnegative. -/
theorem respond_ride_request_seats_nonneg_witness :
    0 ≤ ({ ride1 with available_seats := 2 } : Ride).available_seats :=
  respond_ride_request_seats_nonneg dbReqDup aliceU "req1" "accept"
    "Request accepted"
    { dbReqDup with ride_requests := [{ reqBobPending with status := "accepted" }], rides := [{ ride1 with available_seats := 2 }] }
    (by decide) (by rfl) { ride1 with available_seats := 2 } (by simp)

/-- Claim C10: in both respond operations the dispatch on the action string
is a strict equality test against accept: any other action string, for
example an empty string or another word, stores and reports rejected, and
accept is the only action value that stores and reports accepted. -/
theorem respond_action_dispatch
    (db : DB) (user : User) (follow_id request_id action : String)
    (e : Follow) (rq : RideRequest) (ride : Ride)
    (hf : db.follows.find? (fun f => f.follow_id == follow_id &&
      f.following_id == user.user_id && f.status == "pending") = some e)
    (hfu : db.follows.find? (fun f => f.follow_id == follow_id) = some e)
    (hreq : db.ride_requests.find? (fun r => r.request_id == request_id) = some rq)
    (hride : db.rides.find? (fun r => r.ride_id == rq.ride_id) = some ride)
    (hown : ride.user_id = user.user_id) :
    (action ≠ "accept" →
      (∃ dbf, respond_follow_request db user follow_id action =
          .ok ("Follow request rejected", dbf) ∧
        dbf.follows.find? (fun f => f.follow_id == follow_id) =
          some { e with status := "rejected" }) ∧
      (∃ dbr, respond_ride_request db user request_id action =
          .ok ("Request rejected", dbr) ∧
        dbr.ride_requests.find? (fun r => r.request_id == request_id) =
          some { rq with status := "rejected" })) ∧
    (action = "accept" →
      (∃ dbf, respond_follow_request db user follow_id action =
          .ok ("Follow request accepted", dbf) ∧
        dbf.follows.find? (fun f => f.follow_id == follow_id) =
          some { e with status := "accepted" }) ∧
      (∃ dbr, respond_ride_request db user request_id action =
          .ok ("Request accepted", dbr) ∧
        dbr.ride_requests.find? (fun r => r.request_id == request_id) =
          some { rq with status := "accepted" })) := by
  have hownb : (ride.user_id == user.user_id) = true := beq_iff_eq.mpr hown
  have hfol : ∀ st : String,
      (updateOne (fun f => f.follow_id == follow_id)
        (fun f => { f with status := st }) db.follows).find?
          (fun f => f.follow_id == follow_id) = some { e with status := st } := by
    intro st
    have hpf : ∀ f : Follow, (f.follow_id == follow_id) = true →
        (({ f with status := st } : Follow).follow_id == follow_id) = true := by
      intro f hr
      simpa using hr
    have := find?_updateOne (fun f => f.follow_id == follow_id)
      (fun f => { f with status := st }) hpf db.follows
    rw [hfu] at this
    simpa using this
  have hreqf : ∀ st : String,
      (updateOne (fun r => r.request_id == request_id)
        (fun r => { r with status := st }) db.ride_requests).find?
          (fun r => r.request_id == request_id) = some { rq with status := st } := by
    intro st
    have hpf : ∀ r : RideRequest, (r.request_id == request_id) = true →
        (({ r with status := st } : RideRequest).request_id == request_id) = true := by
      intro r hr
      simpa using hr
    have := find?_updateOne (fun r => r.request_id == request_id)
      (fun r => { r with status := st }) hpf db.ride_requests
    rw [hreq] at this
    simpa using this
  constructor
  · intro hne
    have hact : (action == "accept") = false := beq_eq_false_iff_ne.mpr hne
    constructor
    · refine ⟨{ db with follows := updateOne (fun f => f.follow_id == follow_id) (fun f => { f with status := "rejected" }) db.follows }, ?_, ?_⟩
      · simp [respond_follow_request, hf, hact]
      · simpa using hfol "rejected"
    · refine ⟨{ db with ride_requests := updateOne (fun r => r.request_id == request_id) (fun r => { r with status := "rejected" }) db.ride_requests }, ?_, ?_⟩
      · simp [respond_ride_request, hreq, hride, hownb, hact]
      · simpa using hreqf "rejected"
  · intro heqa
    have hact : (action == "accept") = true := beq_iff_eq.mpr heqa
    constructor
    · refine ⟨{ db with follows := updateOne (fun f => f.follow_id == follow_id) (fun f => { f with status := "accepted" }) db.follows }, ?_, ?_⟩
      · simp [respond_follow_request, hf, hact]
      · simpa using hfol "accepted"
    · by_cases hseats : 0 < ride.available_seats
      · have hguard : (decide (ride.available_seats > 0)) = true := by
          simpa using hseats
        refine ⟨{ db with ride_requests := updateOne (fun r => r.request_id == request_id) (fun r => { r with status := "accepted" }) db.ride_requests, rides := updateOne (fun r => r.ride_id == rq.ride_id) (fun r => { r with available_seats := r.available_seats - 1 }) db.rides }, ?_, ?_⟩
        · simp [respond_ride_request, hreq, hride, hownb, hact, hguard]
        · simpa using hreqf "accepted"
      · have hguard : (decide (ride.available_seats > 0)) = false := by
          simpa using hseats
        refine ⟨{ db with ride_requests := updateOne (fun r => r.request_id == request_id) (fun r => { r with status := "accepted" }) db.ride_requests }, ?_, ?_⟩
        · simp [respond_ride_request, hreq, hride, hownb, hact, hguard]
        · simpa using hreqf "accepted"

/-- Pending follow edge from bob toward alice, for concrete witnesses. -/
def followBobAlice : Follow :=
  { follow_id := "fol1", follower_id := "bob", following_id := "alice",
    status := "pending", created_at := 3 }

/-- Store with a pending follow edge toward alice and a pending ride
request by bob on the alice ride. -/
def dbRespond : DB := { dbReqDup with follows := [followBobAlice] }

/-- Concrete witness for the C10 theorem: the action string decline, which
differs from accept without being reject, stores rejected in both respond
operations, and the action string accept stores accepted. -/
theorem respond_action_dispatch_witness :
    ((∃ dbf, respond_follow_request dbRespond aliceU "fol1" "decline" =
        .ok ("Follow request rejected", dbf) ∧
      dbf.follows.find? (fun f => f.follow_id == "fol1") =
        some { followBobAlice with status := "rejected" }) ∧
    (∃ dbr, respond_ride_request dbRespond aliceU "req1" "decline" =
        .ok ("Request rejected", dbr) ∧
      dbr.ride_requests.find? (fun r => r.request_id == "req1") =
        some { reqBobPending with status := "rejected" })) ∧
    ((∃ dbf, respond_follow_request dbRespond aliceU "fol1" "accept" =
        .ok ("Follow request accepted", dbf) ∧
      dbf.follows.find? (fun f => f.follow_id == "fol1") =
        some { followBobAlice with status := "accepted" }) ∧
    (∃ dbr, respond_ride_request dbRespond aliceU "req1" "accept" =
        .ok ("Request accepted", dbr) ∧
      dbr.ride_requests.find? (fun r => r.request_id == "req1") =
        some { reqBobPending with status := "accepted" })) := by
  constructor
  · exact (respond_action_dispatch dbRespond aliceU "fol1" "req1" "decline"
      followBobAlice reqBobPending ride1 (by rfl) (by rfl) (by rfl) (by rfl)
      (by rfl)).1 (by decide)
  · exact (respond_action_dispatch dbRespond aliceU "fol1" "req1" "accept"
      followBobAlice reqBobPending ride1 (by rfl) (by rfl) (by rfl) (by rfl)
      (by rfl)).2 (by rfl)

/-- Number of stored follow edges for one ordered follower, following pair. -/
def followPairCount (db : DB) (follower_id following_id : String) : Nat :=
  db.follows.countP (fun f =>
    f.follower_id == follower_id && f.following_id == following_id)

/-- Claim C4: follow is idempotent on an existing edge: starting from a
store with at most one edge for the ordered pair, a successful follow call
leaves the second call returning the very same status with the store
unchanged, exactly one edge exists for the pair afterwards, and when an
edge with any status, rejected included, already existed, the first call
already returned that stored status without touching the store. -/
theorem follow_user_idempotent
    (db : DB) (user : User) (following_id fid1 fid2 : String) (n1 n2 : Int)
    (msg s : String) (db1 : DB)
    (hinv : followPairCount db user.user_id following_id ≤ 1)
    (h1 : follow_user db user following_id fid1 n1 = .ok (msg, s, db1)) :
    follow_user db1 user following_id fid2 n2 =
      .ok ("Already following or request pending", s, db1) ∧
    followPairCount db1 user.user_id following_id = 1 ∧
    (∀ e, db.follows.find? (fun f => f.follower_id == user.user_id &&
        f.following_id == following_id) = some e →
      s = e.status ∧ db1 = db) := by
  by_cases hself : (user.user_id == following_id) = true
  · rw [show follow_user db user following_id fid1 n1 =
      .error ⟨400, "Cannot follow yourself"⟩ from by simp [follow_user, hself]] at h1
    simp at h1
  · simp only [Bool.not_eq_true] at hself
    cases htgt : db.users.find? (fun u => u.user_id == following_id) with
    | none =>
      rw [show follow_user db user following_id fid1 n1 =
        .error ⟨404, "User not found"⟩ from by simp [follow_user, hself, htgt]] at h1
      simp at h1
    | some target =>
      cases hex : db.follows.find? (fun f => f.follower_id == user.user_id &&
          f.following_id == following_id) with
      | some ex =>
        rw [show follow_user db user following_id fid1 n1 =
          .ok ("Already following or request pending", ex.status, db) from by
          simp [follow_user, hself, htgt, hex]] at h1
        rw [Except.ok.injEq, Prod.mk.injEq, Prod.mk.injEq] at h1
        obtain ⟨h1a, h1b, h1c⟩ := h1
        subst h1a; subst h1b; subst h1c
        refine ⟨?_, ?_, ?_⟩
        · simp [follow_user, hself, htgt, hex]
        · have hge := countP_pos_of_find?_some _ hex
          unfold followPairCount at hinv ⊢
          omega
        · intro e he
          have hee := Option.some.inj he
          exact ⟨by rw [hee], rfl⟩
      | none =>
        by_cases hpub : target.is_public = true
        · rw [show follow_user db user following_id fid1 n1 =
            .ok ("Now following", "accepted",
              { db with follows := db.follows ++
                [⟨fid1, user.user_id, following_id, "accepted", n1⟩] }) from by
            simp [follow_user, hself, htgt, hex, hpub]] at h1
          rw [Except.ok.injEq, Prod.mk.injEq, Prod.mk.injEq] at h1
          obtain ⟨h1a, h1b, h1c⟩ := h1
          subst h1a; subst h1b; subst h1c
          have hfind2 : (db.follows ++
              [(⟨fid1, user.user_id, following_id, "accepted", n1⟩ : Follow)]).find?
                (fun f => f.follower_id == user.user_id &&
                  f.following_id == following_id) =
              some ⟨fid1, user.user_id, following_id, "accepted", n1⟩ := by
            rw [find?_append_of_none _ _ hex]
            simp
          refine ⟨?_, ?_, ?_⟩
          · simp [follow_user, hself, htgt, hfind2]
          · unfold followPairCount
            simp only [List.countP_append]
            rw [countP_eq_zero_of_find?_none _ hex]
            simp
          · intro e he
            exact absurd he (by simp)
        · simp only [Bool.not_eq_true] at hpub
          rw [show follow_user db user following_id fid1 n1 =
            .ok ("Follow request sent", "pending",
              { db with follows := db.follows ++
                [⟨fid1, user.user_id, following_id, "pending", n1⟩] }) from by
            simp [follow_user, hself, htgt, hex, hpub]] at h1
          rw [Except.ok.injEq, Prod.mk.injEq, Prod.mk.injEq] at h1
          obtain ⟨h1a, h1b, h1c⟩ := h1
          subst h1a; subst h1b; subst h1c
          have hfind2 : (db.follows ++
              [(⟨fid1, user.user_id, following_id, "pending", n1⟩ : Follow)]).find?
                (fun f => f.follower_id == user.user_id &&
                  f.following_id == following_id) =
              some ⟨fid1, user.user_id, following_id, "pending", n1⟩ := by
            rw [find?_append_of_none _ _ hex]
            simp
          refine ⟨?_, ?_, ?_⟩
          · simp [follow_user, hself, htgt, hfind2]
          · unfold followPairCount
            simp only [List.countP_append]
            rw [countP_eq_zero_of_find?_none _ hex]
            simp
          · intro e he
            exact absurd he (by simp)

/-- Store with only the two users, no follow edge, for the C4 witness. -/
def dbFol : DB := { emptyDB with users := [aliceU, bobU] }

/-- The same store after bob follows the public user alice. -/
def dbFolAfter : DB :=
  { dbFol with follows := [⟨"f1", "bob", "alice", "accepted", 0⟩] }

/-- Concrete witness for the C4 theorem: after bob follows alice once, a
second follow call reports the same status accepted, changes nothing, and
exactly one edge exists for the pair. -/
theorem follow_user_idempotent_witness :
    follow_user dbFolAfter bobU "alice" "f2" 1 =
      .ok ("Already following or request pending", "accepted", dbFolAfter) ∧
    followPairCount dbFolAfter "bob" "alice" = 1 ∧
    (∀ e, dbFol.follows.find? (fun f => f.follower_id == "bob" &&
        f.following_id == "alice") = some e →
      "accepted" = e.status ∧ dbFolAfter = dbFol) :=
  follow_user_idempotent dbFol bobU "alice" "f1" "f2" 0 1
    "Now following" "accepted" dbFolAfter (by decide) (by rfl)

/-- The bob request on ride1 already in the accepted state. -/
def reqBobAccepted : RideRequest := { reqBobPending with status := "accepted" }

/-- The alice ride with two seats left. -/
def ride2 : Ride := { ride1 with available_seats := 2 }

/-- Store where the bob request was already accepted and the ride has two
seats left. -/
def dbAccepted : DB :=
  { emptyDB with
    users := [aliceU, bobU],
    rides := [ride2],
    ride_requests := [reqBobAccepted] }

/-- Counterexample to claim C2: the respond operation never checks the
current status of a ride request, so a request already in the terminal
accepted state is not one-shot: a later reject call flips its stored
status to rejected, and a later accept call decrements the seat count
again, from two to one, even though the request was already accepted. -/
theorem respond_ride_request_not_one_shot :
    respond_ride_request dbAccepted aliceU "req1" "reject" =
      .ok ("Request rejected",
        { dbAccepted with ride_requests := [{ reqBobPending with status := "rejected" }] }) ∧
    respond_ride_request dbAccepted aliceU "req1" "accept" =
      .ok ("Request accepted",
        { dbAccepted with rides := [{ ride1 with available_seats := 1 }], ride_requests := [reqBobAccepted] }) := by
  constructor
  · rfl
  · rfl

/-- Claim C2 as amended: for ride requests the transition is re-applied on
every respond call regardless of the current status: with the request in a
terminal state already, the owner call still overwrites the stored status
from the action and, on accept with a positive seat count, decrements the
seat count again.  (The pending filter that makes follow request
responses one-shot has no counterpart here.) -/
theorem respond_ride_request_retransitions
    (db : DB) (user : User) (request_id action : String)
    (rq : RideRequest) (ride : Ride)
    (hreq : db.ride_requests.find? (fun r => r.request_id == request_id) = some rq)
    (hterm : rq.status = "accepted" ∨ rq.status = "rejected")
    (hride : db.rides.find? (fun r => r.ride_id == rq.ride_id) = some ride)
    (hown : ride.user_id = user.user_id) :
    ∃ db2, respond_ride_request db user request_id action =
      .ok ("Request " ++ (if action == "accept" then "accepted" else "rejected"), db2) ∧
      db2.ride_requests.find? (fun r => r.request_id == request_id) =
        some { rq with status := if action == "accept" then "accepted" else "rejected" } ∧
      (action = "accept" → 0 < ride.available_seats →
        db2.rides.find? (fun r => r.ride_id == rq.ride_id) =
          some { ride with available_seats := ride.available_seats - 1 }) := by
  have hownb : (ride.user_id == user.user_id) = true := beq_iff_eq.mpr hown
  have hfindreq : ∀ st : String,
      (updateOne (fun r => r.request_id == request_id)
        (fun r => { r with status := st }) db.ride_requests).find?
          (fun r => r.request_id == request_id) = some { rq with status := st } := by
    intro st
    have hpf : ∀ r : RideRequest, (r.request_id == request_id) = true →
        (({ r with status := st } : RideRequest).request_id == request_id) = true := by
      intro r hr
      simpa using hr
    have := find?_updateOne (fun r => r.request_id == request_id)
      (fun r => { r with status := st }) hpf db.ride_requests
    rw [hreq] at this
    simpa using this
  by_cases hact : (action == "accept") = true
  · by_cases hseats : 0 < ride.available_seats
    · have hguard : (decide (ride.available_seats > 0)) = true := by
        simpa using hseats
      have hridepf : ∀ r : Ride, (r.ride_id == rq.ride_id) = true →
          (({ r with available_seats := r.available_seats - 1 } : Ride).ride_id ==
            rq.ride_id) = true := by
        intro r hr
        simpa using hr
      have hfindride := find?_updateOne (fun r => r.ride_id == rq.ride_id)
        (fun r => { r with available_seats := r.available_seats - 1 }) hridepf db.rides
      rw [hride] at hfindride
      refine ⟨{ db with ride_requests := updateOne (fun r => r.request_id == request_id) (fun r => { r with status := "accepted" }) db.ride_requests, rides := updateOne (fun r => r.ride_id == rq.ride_id) (fun r => { r with available_seats := r.available_seats - 1 }) db.rides }, ?_, ?_, ?_⟩
      · simp [respond_ride_request, hreq, hride, hownb, hact, hguard]
      · simp only [hact, if_true]
        simpa using hfindreq "accepted"
      · intro h1 h2
        simpa using hfindride
    · have hguard : (decide (ride.available_seats > 0)) = false := by
        simpa using hseats
      refine ⟨{ db with ride_requests := updateOne (fun r => r.request_id == request_id) (fun r => { r with status := "accepted" }) db.ride_requests }, ?_, ?_, ?_⟩
      · simp [respond_ride_request, hreq, hride, hownb, hact, hguard]
      · simp only [hact, if_true]
        simpa using hfindreq "accepted"
      · intro h1 h2
        exact absurd h2 hseats
  · refine ⟨{ db with ride_requests := updateOne (fun r => r.request_id == request_id) (fun r => { r with status := "rejected" }) db.ride_requests }, ?_, ?_, ?_⟩
    · simp [respond_ride_request, hreq, hride, hownb, hact]
    · simp only [hact, if_false, Bool.false_eq_true]
      simpa using hfindreq "rejected"
    · intro h1 h2
      rw [h1] at hact
      simp at hact

/-- Concrete witness for the amended C2 theorem: a second accept on the
already accepted bob request still reports accepted and pulls the seat
count from two down to one. -/
theorem respond_ride_request_retransitions_witness :
    ∃ db2, respond_ride_request dbAccepted aliceU "req1" "accept" =
      .ok ("Request " ++ (if ("accept" == "accept") then "accepted" else "rejected"), db2) ∧
      db2.ride_requests.find? (fun r => r.request_id == "req1") =
        some { reqBobAccepted with status := if ("accept" == "accept") then "accepted" else "rejected" } ∧
      ("accept" = "accept" → 0 < ride2.available_seats →
        db2.rides.find? (fun r => r.ride_id == reqBobAccepted.ride_id) =
          some { ride2 with available_seats := ride2.available_seats - 1 }) :=
  respond_ride_request_retransitions dbAccepted aliceU "req1" "accept"
    reqBobAccepted ride2 (by rfl) (Or.inl (by rfl)) (by rfl) (by rfl)

/-- Store holding only the private user bob and the public user alice, for
the C3 evaluation. -/
def dbPrivate : DB := { emptyDB with users := [bobU, aliceU] }

/-- Evaluation of claim C3 on the code: for the private user bob the
unauthenticated viewer receives the FULL profile, email, phone and bio
included, because the redaction branch on server.py line 469 requires a
truthy current_user, while the authenticated non follower alice receives
the redacted projection; the claim says the unauthenticated viewer must
also receive the redacted projection. -/
theorem get_user_private_profile_viewer_gap :
    get_user dbPrivate "bob" none = .ok (.full bobU) ∧
    get_user dbPrivate "bob" (some aliceU) =
      .ok (.redacted "bob" "Bob" none "passenger" false true) := by
  constructor
  · rfl
  · rfl
